import Mathlib

/-!
# Verification of pve-tool (Proxmox VE snapshot management tool)

Shallow embedding of the pure logic of the Rust sources:
`src/client.rs` (host/port parsing), `src/cluster.rs` (VM resolution and
node listing), `src/snapshot.rs` (snapshot creation/listing, task waiting,
VM info rendering and listing).  Network I/O is modelled by passing the
decoded server responses as explicit inputs; `Result` is modelled by
`Except String`.
-/

namespace PveTool

/-! ## Rust primitives

`str::parse::<uN>` accepts an optional leading `+` sign followed by one or
more ASCII digits, and fails on overflow of the target width.
`str::split_once(c)` splits at the first occurrence of `c`, dropping it. -/

def digitsToNat (cs : List Char) : Nat :=
  cs.foldl (fun a c => 10 * a + (c.toNat - Char.toNat '0')) 0

def parseDigits (bound : Nat) (cs : List Char) : Option Nat :=
  if cs.isEmpty then none
  else if cs.all Char.isDigit then
    if digitsToNat cs ≤ bound then some (digitsToNat cs) else none
  else none

def parseUnsigned (bound : Nat) (s : String) : Option Nat :=
  match s.data with
  | '+' :: rest => parseDigits bound rest
  | cs => parseDigits bound cs

def parseU16 (s : String) : Option Nat :=
  parseUnsigned 65535 s

def parseU32 (s : String) : Option Nat :=
  parseUnsigned 4294967295 s

def splitOnceAux (acc : List Char) : List Char → Option (List Char × List Char)
  | [] => none
  | c :: rest => if c = ':' then some (acc, rest) else splitOnceAux (acc ++ [c]) rest

def splitOnceColon (s : String) : Option (String × String) :=
  match splitOnceAux [] s.data with
  | some (a, b) => some (⟨a⟩, ⟨b⟩)
  | none => none

/-- `ProxmoxClient::parse_host_port` from `src/client.rs`. -/
def parse_host_port (host : String) (default_port : Nat) : String × Nat :=
  match splitOnceColon host with
  | some (h, p) =>
    match parseU16 p with
    | some port => (h, port)
    | none => (host, default_port)
  | none => (host, default_port)

/-! ## Cluster resources and VM resolution (`src/cluster.rs`) -/

structure Resource where
  node : String
  vmid : Nat
  name : Option String
deriving DecidableEq

/-- The name-match fallback (second half of `ClusterManager::find_vm_node`). -/
def find_vm_node_by_name (resources : List Resource) (ident : String) :
    Except String (String × Nat) :=
  match resources.find? (fun r => r.name == some ident) with
  | some r => Except.ok (r.node, r.vmid)
  | none => Except.error ("VM '" ++ ident ++ "' not found in cluster")

/-- `ClusterManager::find_vm_node` from `src/cluster.rs`: numeric vmid match
first (when the identifier parses as `u32`), then exact name match,
otherwise a "not found" error. -/
def find_vm_node (resources : List Resource) (ident : String) :
    Except String (String × Nat) :=
  match parseU32 ident with
  | some vmid =>
    match resources.find? (fun r => r.vmid == vmid) with
    | some r => Except.ok (r.node, r.vmid)
    | none => find_vm_node_by_name resources ident
  | none => find_vm_node_by_name resources ident

/-! ## Helper lemmas -/

theorem parseDigits_le_bound (bound : Nat) (cs : List Char) (v : Nat)
    (h : parseDigits bound cs = some v) : v ≤ bound := by
  unfold parseDigits at h
  split_ifs at h with h1 h2 h3
  cases h
  assumption

theorem parseUnsigned_le_bound (bound : Nat) (s : String) (v : Nat)
    (h : parseUnsigned bound s = some v) : v ≤ bound := by
  unfold parseUnsigned at h
  split at h
  · exact parseDigits_le_bound _ _ _ h
  · exact parseDigits_le_bound _ _ _ h

theorem splitOnceAux_eq_none :
    ∀ (cs acc : List Char), ':' ∉ cs → splitOnceAux acc cs = none := by
  intro cs
  induction cs with
  | nil => intro acc _; rfl
  | cons c rest ih =>
    intro acc h
    have h' : ¬(':' = c ∨ ':' ∈ rest) := by simpa [List.mem_cons] using h
    push_neg at h'
    have hc : ¬c = ':' := fun e => h'.1 e.symm
    simp only [splitOnceAux, if_neg hc]
    exact ih _ h'.2

theorem splitOnceAux_append (suf : List Char) :
    ∀ (pre acc : List Char), ':' ∉ pre →
      splitOnceAux acc (pre ++ ':' :: suf) = some (acc ++ pre, suf) := by
  intro pre
  induction pre with
  | nil => intro acc _; simp [splitOnceAux]
  | cons c rest ih =>
    intro acc h
    have h' : ¬(':' = c ∨ ':' ∈ rest) := by simpa [List.mem_cons] using h
    push_neg at h'
    have hc : ¬c = ':' := fun e => h'.1 e.symm
    simp only [List.cons_append, splitOnceAux, if_neg hc, List.append_eq]
    rw [ih (acc ++ [c]) h'.2]
    simp

theorem splitOnceColon_eq_none (host : String) (h : ':' ∉ host.data) :
    splitOnceColon host = none := by
  unfold splitOnceColon
  rw [splitOnceAux_eq_none host.data [] h]

theorem splitOnceColon_append (pre suf : String) (h : ':' ∉ pre.data) :
    splitOnceColon (pre ++ ":" ++ suf) = some (pre, suf) := by
  unfold splitOnceColon
  have hd : (pre ++ ":" ++ suf).data = pre.data ++ ':' :: suf.data := by
    simp [String.data_append]
  rw [hd, splitOnceAux_append suf.data pre.data [] h]
  simp

/-- C10: `parse_host_port` splits on the first colon, keeping the prefix and
the parsed numeric suffix when the suffix parses as a 16-bit port; when the
suffix does not parse (including the empty suffix) or there is no colon, it
returns the whole original string with the default port. -/
theorem parse_host_port_spec (host pre suf : String) (d : Nat) :
    (':' ∉ host.data → parse_host_port host d = (host, d)) ∧
    (':' ∉ pre.data →
      (∀ port, parseU16 suf = some port →
        parse_host_port (pre ++ ":" ++ suf) d = (pre, port)) ∧
      (parseU16 suf = none →
        parse_host_port (pre ++ ":" ++ suf) d = (pre ++ ":" ++ suf, d))) ∧
    parseU16 "" = none ∧
    (∀ port, parseU16 suf = some port → port ≤ 65535) := by
  refine ⟨?_, ?_, ?_, ?_⟩
  · intro h
    unfold parse_host_port
    rw [splitOnceColon_eq_none host h]
  · intro h
    constructor
    · intro port hp
      simp only [parse_host_port, splitOnceColon_append pre suf h, hp]
    · intro hp
      simp only [parse_host_port, splitOnceColon_append pre suf h, hp]
  · rfl
  · intro port hp
    exact parseUnsigned_le_bound _ _ _ hp

/-- Witness for C10: the unit-test inputs from `src/client.rs`. -/
theorem parse_host_port_spec_witness :
    parse_host_port ("192.168.1.1" ++ ":" ++ "9000") 8006 = ("192.168.1.1", 9000) ∧
    parse_host_port ("192.168.1.1" ++ ":" ++ "invalid") 8006 =
      ("192.168.1.1" ++ ":" ++ "invalid", 8006) ∧
    parse_host_port "192.168.1.1" 8006 = ("192.168.1.1", 8006) := by
  refine ⟨?_, ?_, ?_⟩
  · exact ((parse_host_port_spec "x" "192.168.1.1" "9000" 8006).2.1
      (by decide)).1 9000 (by decide)
  · exact ((parse_host_port_spec "x" "192.168.1.1" "invalid" 8006).2.1
      (by decide)).2 (by decide)
  · exact (parse_host_port_spec "192.168.1.1" "x" "y" 8006).1 (by decide)

/-- C1: when the identifier parses as a `u32` equal to some resource's vmid,
`find_vm_node` returns such a resource's (node, vmid), with no condition on
any resource's name (numeric match takes priority over name match). -/
theorem find_vm_node_numeric_priority (resources : List Resource) (ident : String)
    (vmid : Nat) (hparse : parseU32 ident = some vmid)
    (hmem : ∃ r ∈ resources, r.vmid = vmid) :
    ∃ r ∈ resources, r.vmid = vmid ∧
      find_vm_node resources ident = Except.ok (r.node, r.vmid) := by
  have hsome : (resources.find? (fun r => r.vmid == vmid)).isSome := by
    rw [List.find?_isSome]
    obtain ⟨r, hr, he⟩ := hmem
    exact ⟨r, hr, by simp [he]⟩
  obtain ⟨r, hr⟩ := Option.isSome_iff_exists.mp hsome
  refine ⟨r, List.mem_of_find?_eq_some hr, ?_, ?_⟩
  · have := List.find?_some hr
    simpa using this
  · simp only [find_vm_node, hparse, hr]

/-- Witness for C1: vmid 100 is found numerically on node pve1 although a
different resource is *named* "100". -/
theorem find_vm_node_numeric_priority_witness :
    ∃ r ∈ [Resource.mk "pve1" 100 none, Resource.mk "pve2" 200 (some "100")],
      r.vmid = 100 ∧
      find_vm_node [Resource.mk "pve1" 100 none, Resource.mk "pve2" 200 (some "100")]
        "100" = Except.ok (r.node, r.vmid) :=
  find_vm_node_numeric_priority _ "100" 100 (by decide)
    ⟨Resource.mk "pve1" 100 none, by decide, rfl⟩

theorem find_vm_node_by_name_found (resources : List Resource) (ident : String)
    (hname : ∃ r ∈ resources, r.name = some ident) :
    ∃ r ∈ resources, r.name = some ident ∧
      find_vm_node_by_name resources ident = Except.ok (r.node, r.vmid) := by
  have hsome : (resources.find? (fun r => r.name == some ident)).isSome := by
    rw [List.find?_isSome]
    obtain ⟨r, hr, he⟩ := hname
    exact ⟨r, hr, by simp [he]⟩
  obtain ⟨r, hr⟩ := Option.isSome_iff_exists.mp hsome
  refine ⟨r, List.mem_of_find?_eq_some hr, ?_, ?_⟩
  · have := List.find?_some hr
    simpa using this
  · unfold find_vm_node_by_name
    rw [hr]

theorem find_vm_node_skips_numeric (resources : List Resource) (ident : String)
    (hnum : ∀ v, parseU32 ident = some v → ∀ r ∈ resources, r.vmid ≠ v) :
    find_vm_node resources ident = find_vm_node_by_name resources ident := by
  unfold find_vm_node
  cases hp : parseU32 ident with
  | none => rfl
  | some v =>
    have hnone : resources.find? (fun r => r.vmid == v) = none := by
      rw [List.find?_eq_none]
      intro x hx
      simp only [beq_iff_eq]
      exact hnum v hp x hx
    simp only [hnone]

/-- C3: even when the identifier parses as a `u32` that matches no vmid,
`find_vm_node` still falls through to the exact name match and returns a
resource whose name equals the identifier when one exists. -/
theorem find_vm_node_name_fallback (resources : List Resource) (ident : String)
    (hnum : ∀ v, parseU32 ident = some v → ∀ r ∈ resources, r.vmid ≠ v)
    (hname : ∃ r ∈ resources, r.name = some ident) :
    ∃ r ∈ resources, r.name = some ident ∧
      find_vm_node resources ident = Except.ok (r.node, r.vmid) := by
  obtain ⟨r, hr, hn, he⟩ := find_vm_node_by_name_found resources ident hname
  exact ⟨r, hr, hn, by rw [find_vm_node_skips_numeric resources ident hnum]; exact he⟩

/-- Witness for C3: "101" parses as 101 which matches no vmid, yet the VM
named "101" is still found by name. -/
theorem find_vm_node_name_fallback_witness :
    ∃ r ∈ [Resource.mk "pve1" 500 (some "101")],
      r.name = some "101" ∧
      find_vm_node [Resource.mk "pve1" 500 (some "101")] "101" =
        Except.ok (r.node, r.vmid) :=
  find_vm_node_name_fallback _ "101"
    (by
      intro v hv
      rw [show parseU32 "101" = some 101 from by decide] at hv
      cases hv
      decide)
    ⟨Resource.mk "pve1" 500 (some "101"), by decide, rfl⟩

/-- C4: when the identifier matches no resource numerically and no resource
by exact name, `find_vm_node` fails with a "not found" error whose message
contains the identifier. -/
theorem find_vm_node_not_found (resources : List Resource) (ident : String)
    (hnum : ∀ v, parseU32 ident = some v → ∀ r ∈ resources, r.vmid ≠ v)
    (hname : ∀ r ∈ resources, r.name ≠ some ident) :
    find_vm_node resources ident =
      Except.error ("VM '" ++ ident ++ "' not found in cluster") ∧
    ∃ pre post,
      "VM '" ++ ident ++ "' not found in cluster" = pre ++ ident ++ post := by
  constructor
  · rw [find_vm_node_skips_numeric resources ident hnum]
    unfold find_vm_node_by_name
    have hnone : resources.find? (fun r => r.name == some ident) = none := by
      rw [List.find?_eq_none]
      intro x hx
      simp only [beq_iff_eq]
      exact hname x hx
    rw [hnone]
  · exact ⟨"VM '", "' not found in cluster", rfl⟩

/-- Witness for C4: identifier "999" parses but matches nothing. -/
theorem find_vm_node_not_found_witness :
    find_vm_node [Resource.mk "pve1" 100 (some "vm-a")] "999" =
      Except.error ("VM '" ++ "999" ++ "' not found in cluster") ∧
    ∃ pre post, "VM '" ++ "999" ++ "' not found in cluster" = pre ++ "999" ++ post :=
  find_vm_node_not_found _ "999"
    (by
      intro v hv
      rw [show parseU32 "999" = some 999 from by decide] at hv
      cases hv
      decide)
    (by decide)

/-! ## Task polling (`SnapshotManager::wait_for_task` in `src/snapshot.rs`)

One poll decodes a `TaskStatus`; the loop body either terminates with a
result or (on `"running"`) sleeps and polls again.  The loop is modelled
over the finite sequence of poll responses: `none` means every response was
`"running"` and the loop is still going. -/

structure TaskStatus where
  status : String
  exitstatus : Option String
deriving DecidableEq

inductive TaskResult where
  | ok : TaskResult
  | taskFailed : Option String → TaskResult
  | unknownStatus : String → TaskResult
deriving DecidableEq

/-- One iteration of the `loop` in `wait_for_task`: `none` = keep polling. -/
def wait_for_task_step (s : TaskStatus) : Option TaskResult :=
  if s.status = "stopped" then
    if s.exitstatus = some "OK" then some TaskResult.ok
    else some (TaskResult.taskFailed s.exitstatus)
  else if s.status = "running" then none
  else some (TaskResult.unknownStatus s.status)

def wait_for_task : List TaskStatus → Option TaskResult
  | [] => none
  | s :: rest =>
    match wait_for_task_step s with
    | some r => some r
    | none => wait_for_task rest

theorem wait_for_task_ok_mem :
    ∀ polls : List TaskStatus, wait_for_task polls = some TaskResult.ok →
      ∃ t ∈ polls, t.status = "stopped" ∧ t.exitstatus = some "OK" := by
  intro polls
  induction polls with
  | nil => intro h; exact Option.noConfusion h
  | cons s rest ih =>
    intro h
    by_cases hstop : s.status = "stopped"
    · by_cases hok : s.exitstatus = some "OK"
      · exact ⟨s, List.mem_cons_self s rest, hstop, hok⟩
      · simp [wait_for_task, wait_for_task_step, hstop, hok] at h
    · by_cases hrun : s.status = "running"
      · have h' : wait_for_task rest = some TaskResult.ok := by
          simpa [wait_for_task, wait_for_task_step, hstop, hrun] using h
        obtain ⟨t, ht, hp⟩ := ih h'
        exact ⟨t, List.mem_cons_of_mem s ht, hp⟩
      · simp [wait_for_task, wait_for_task_step, hstop, hrun] at h

/-- C2: `wait_for_task` succeeds iff a poll reports status `"stopped"` with
`exitstatus = "OK"`; a `"stopped"` poll with any other (or absent) exit
value fails carrying that exit value; any status other than `"running"` or
`"stopped"` fails with a distinct protocol error carrying the unknown
status; `"running"` keeps polling. -/
theorem wait_for_task_spec (s : TaskStatus) (rest polls : List TaskStatus) :
    (wait_for_task polls = some TaskResult.ok →
      ∃ t ∈ polls, t.status = "stopped" ∧ t.exitstatus = some "OK") ∧
    (s.status = "stopped" → s.exitstatus = some "OK" →
      wait_for_task (s :: rest) = some TaskResult.ok) ∧
    (s.status = "stopped" → s.exitstatus ≠ some "OK" →
      wait_for_task (s :: rest) = some (TaskResult.taskFailed s.exitstatus)) ∧
    (s.status ≠ "stopped" → s.status ≠ "running" →
      wait_for_task (s :: rest) = some (TaskResult.unknownStatus s.status)) ∧
    (s.status = "running" → wait_for_task (s :: rest) = wait_for_task rest) ∧
    (∀ ex st, TaskResult.taskFailed ex ≠ TaskResult.ok ∧
      TaskResult.unknownStatus st ≠ TaskResult.ok ∧
      ∀ ex2, TaskResult.unknownStatus st ≠ TaskResult.taskFailed ex2) := by
  refine ⟨wait_for_task_ok_mem polls, ?_, ?_, ?_, ?_, ?_⟩
  · intro hstop hok
    simp [wait_for_task, wait_for_task_step, hstop, hok]
  · intro hstop hok
    simp [wait_for_task, wait_for_task_step, hstop, hok]
  · intro hstop hrun
    simp [wait_for_task, wait_for_task_step, hstop, hrun]
  · intro hrun
    have hstop : s.status ≠ "stopped" := by rw [hrun]; decide
    simp [wait_for_task, wait_for_task_step, hstop, hrun]
  · intro ex st
    exact ⟨fun h => TaskResult.noConfusion h, fun h => TaskResult.noConfusion h,
      fun ex2 h => TaskResult.noConfusion h⟩

/-- Witness for C2 at concrete poll sequences. -/
theorem wait_for_task_spec_witness :
    wait_for_task [TaskStatus.mk "running" none, TaskStatus.mk "stopped" (some "OK")] =
      some TaskResult.ok ∧
    wait_for_task [TaskStatus.mk "stopped" (some "ERROR: failed")] =
      some (TaskResult.taskFailed (some "ERROR: failed")) ∧
    wait_for_task [TaskStatus.mk "suspended" none] =
      some (TaskResult.unknownStatus "suspended") := by
  refine ⟨?_, ?_, ?_⟩
  · rw [(wait_for_task_spec (TaskStatus.mk "running" none)
      [TaskStatus.mk "stopped" (some "OK")] []).2.2.2.2.1 rfl]
    exact (wait_for_task_spec (TaskStatus.mk "stopped" (some "OK")) [] []).2.1 rfl rfl
  · exact (wait_for_task_spec (TaskStatus.mk "stopped" (some "ERROR: failed")) [] []).2.2.1
      rfl (by decide)
  · exact (wait_for_task_spec (TaskStatus.mk "suspended" none) [] []).2.2.2.1
      (by decide) (by decide)

/-! ## Snapshot listing (`SnapshotManager::list_snapshots` in `src/snapshot.rs`) -/

structure Snapshot where
  name : String
  description : Option String
  snaptime : Option Int
deriving DecidableEq

/-- The entries the rendering loop of `list_snapshots` iterates over:
`snapshots.iter().filter(|s| s.name != "current")`. -/
def list_snapshots_shown (snapshots : List Snapshot) : List Snapshot :=
  snapshots.filter (fun s => s.name != "current")

/-- C5: the rendered snapshot list contains exactly the fetched entries
whose name is not `"current"`: the sentinel is never shown, every other
entry is. -/
theorem list_snapshots_shown_spec (snapshots : List Snapshot) (s : Snapshot) :
    s ∈ list_snapshots_shown snapshots ↔ s ∈ snapshots ∧ s.name ≠ "current" := by
  unfold list_snapshots_shown
  rw [List.mem_filter]
  simp [bne_iff_ne]

/-! ## Snapshot creation (`SnapshotManager::create_snapshot` in `src/snapshot.rs`)

The wall-clock time is passed explicitly; `chrono`'s `%Y`/`%m`/`%d`/`%H`/
`%M`/`%S` zero-pad to 4 resp. 2 digits (for the in-range values a real
clock produces). -/

structure LocalTime where
  year : Nat
  month : Nat
  day : Nat
  hour : Nat
  minute : Nat
  second : Nat
deriving DecidableEq

/-- Two-digit zero-padded decimal (chrono `%m`, `%d`, `%H`, `%M`, `%S`). -/
def pad2 (n : Nat) : String :=
  ⟨[Nat.digitChar (n / 10), Nat.digitChar (n % 10)]⟩

/-- Four-digit zero-padded decimal (chrono `%Y` for years 0..9999). -/
def pad4 (n : Nat) : String :=
  ⟨[Nat.digitChar (n / 1000), Nat.digitChar (n / 100 % 10),
    Nat.digitChar (n / 10 % 10), Nat.digitChar (n % 10)]⟩

/-- Default name: `format!("snapshot-{}", now.format("%Y%m%d-%H%M%S"))`. -/
def default_snapname (t : LocalTime) : String :=
  "snapshot-" ++ pad4 t.year ++ pad2 t.month ++ pad2 t.day ++ "-" ++
    pad2 t.hour ++ pad2 t.minute ++ pad2 t.second

/-- Default description: `format!("Snapshot created on {}", now.format("%Y-%m-%d %H:%M:%S"))`. -/
def default_description (t : LocalTime) : String :=
  "Snapshot created on " ++ pad4 t.year ++ "-" ++ pad2 t.month ++ "-" ++
    pad2 t.day ++ " " ++ pad2 t.hour ++ ":" ++ pad2 t.minute ++ ":" ++ pad2 t.second

/-- The serialized `SnapshotRequest`; `vmstate = none` models the field
being skipped (`skip_serializing_if = "Option::is_none"`). -/
structure SnapshotRequest where
  snapname : String
  description : String
  vmstate : Option Nat
deriving DecidableEq

/-- The request body built by `create_snapshot`. -/
def create_snapshot_request (snapname description : Option String)
    (vmstate : Bool) (now : LocalTime) : SnapshotRequest :=
  { snapname := snapname.getD (default_snapname now)
    description := description.getD (default_description now)
    vmstate := if vmstate then some 1 else none }

/-- The shape `snapshot-<8 digits>-<6 digits>`. -/
def snapname_pattern (s : String) : Prop :=
  ∃ d8 d6 : List Char,
    s.data = "snapshot-".data ++ d8 ++ '-' :: d6 ∧
    d8.length = 8 ∧ d6.length = 6 ∧
    d8.all Char.isDigit = true ∧ d6.all Char.isDigit = true

theorem digitChar_isDigit (d : Nat) (h : d < 10) :
    (Nat.digitChar d).isDigit = true := by
  interval_cases d <;> decide

theorem pad2_all_digits (n : Nat) (h : n ≤ 99) :
    (pad2 n).data.all Char.isDigit = true := by
  simp only [pad2, List.all_cons, List.all_nil, Bool.and_true, Bool.and_eq_true]
  exact ⟨digitChar_isDigit _ (by omega), digitChar_isDigit _ (by omega)⟩

theorem pad4_all_digits (n : Nat) (h : n ≤ 9999) :
    (pad4 n).data.all Char.isDigit = true := by
  simp only [pad4, List.all_cons, List.all_nil, Bool.and_true, Bool.and_eq_true]
  exact ⟨digitChar_isDigit _ (by omega), digitChar_isDigit _ (by omega),
    digitChar_isDigit _ (by omega), digitChar_isDigit _ (by omega)⟩

/-- C6: with no explicit name, the submitted snapname matches
`snapshot-<8 digits>-<6 digits>`, and the request carries `vmstate = 1`
exactly when the flag is set, omitting the field otherwise. -/
theorem create_snapshot_request_spec (snapname description : Option String)
    (vmstate : Bool) (t : LocalTime)
    (hy : t.year ≤ 9999) (hm : t.month ≤ 99) (hd : t.day ≤ 99)
    (hh : t.hour ≤ 99) (hmi : t.minute ≤ 99) (hs : t.second ≤ 99) :
    (create_snapshot_request none description vmstate t).snapname =
      default_snapname t ∧
    snapname_pattern ((create_snapshot_request none description vmstate t).snapname) ∧
    (create_snapshot_request snapname description true t).vmstate = some 1 ∧
    (create_snapshot_request snapname description false t).vmstate = none := by
  have hname : (create_snapshot_request none description vmstate t).snapname =
      default_snapname t := rfl
  refine ⟨hname, ?_, rfl, rfl⟩
  rw [hname]
  refine ⟨(pad4 t.year).data ++ (pad2 t.month).data ++ (pad2 t.day).data,
    (pad2 t.hour).data ++ (pad2 t.minute).data ++ (pad2 t.second).data,
    ?_, ?_, ?_, ?_, ?_⟩
  · simp [default_snapname, String.data_append, List.append_assoc]
  · simp [pad4, pad2]
  · simp [pad2]
  · simp only [List.all_append, Bool.and_eq_true]
    exact ⟨⟨pad4_all_digits _ hy, pad2_all_digits _ hm⟩, pad2_all_digits _ hd⟩
  · simp only [List.all_append, Bool.and_eq_true]
    exact ⟨⟨pad2_all_digits _ hh, pad2_all_digits _ hmi⟩, pad2_all_digits _ hs⟩

/-- Witness for C6 at a concrete clock reading. -/
theorem create_snapshot_request_spec_witness :
    (create_snapshot_request none none false (LocalTime.mk 2026 10 12 14 30 5)).snapname =
      default_snapname (LocalTime.mk 2026 10 12 14 30 5) ∧
    snapname_pattern
      ((create_snapshot_request none none false (LocalTime.mk 2026 10 12 14 30 5)).snapname) ∧
    (create_snapshot_request none none true (LocalTime.mk 2026 10 12 14 30 5)).vmstate =
      some 1 ∧
    (create_snapshot_request none none false (LocalTime.mk 2026 10 12 14 30 5)).vmstate =
      none :=
  create_snapshot_request_spec none none false (LocalTime.mk 2026 10 12 14 30 5)
    (by decide) (by decide) (by decide) (by decide) (by decide) (by decide)

/-! ## VM info rendering (`SnapshotManager::show_vm_info` in `src/snapshot.rs`)

The `status/current` JSON document is modelled by its independently
optional fields; the `f64` CPU fraction is modelled as a rational.  Each
`if let Some(..)` in the source contributes its line independently. -/

structure VmCurrentStatus where
  name : Option String
  status : Option String
  cpu : Option ℚ
  mem : Option Nat
  maxmem : Option Nat

inductive InfoLine where
  | name : String → InfoLine
  | status : String → InfoLine
  | cpu : ℚ → InfoLine
  | memory : Nat → Nat → ℚ → InfoLine
deriving DecidableEq

/-- The field lines printed by `show_vm_info` (after the fixed Node/VMID
header): name, status, CPU% = fraction×100, and the memory line (used MB,
max MB, used/max×100) only when both `mem` and `maxmem` are present. -/
def show_vm_info_lines (info : VmCurrentStatus) : List InfoLine :=
  (match info.name with
   | some n => [InfoLine.name n]
   | none => []) ++
  (match info.status with
   | some st => [InfoLine.status st]
   | none => []) ++
  (match info.cpu with
   | some c => [InfoLine.cpu (c * 100)]
   | none => []) ++
  (match info.mem, info.maxmem with
   | some m, some mx =>
     [InfoLine.memory (m / 1048576) (mx / 1048576) ((m : ℚ) / (mx : ℚ) * 100)]
   | _, _ => [])

/-- C7: each field is reported independently of the others' absence, the
CPU percentage is the raw fraction times 100 (no clamping), and the memory
line (used/max×100) is omitted exactly when `maxmem` (or `mem`) is absent. -/
theorem show_vm_info_lines_spec (info : VmCurrentStatus) (n st : String)
    (p : ℚ) (u mx : Nat) :
    (InfoLine.name n ∈ show_vm_info_lines info ↔ info.name = some n) ∧
    (InfoLine.status st ∈ show_vm_info_lines info ↔ info.status = some st) ∧
    (InfoLine.cpu p ∈ show_vm_info_lines info ↔
      ∃ c, info.cpu = some c ∧ p = c * 100) ∧
    (InfoLine.memory u mx p ∈ show_vm_info_lines info ↔
      ∃ m mm, info.mem = some m ∧ info.maxmem = some mm ∧
        u = m / 1048576 ∧ mx = mm / 1048576 ∧ p = (m : ℚ) / (mm : ℚ) * 100) ∧
    (info.maxmem = none → ∀ a b q, InfoLine.memory a b q ∉ show_vm_info_lines info) := by
  obtain ⟨na, sta, cp, me, mm⟩ := info
  cases na <;> cases sta <;> cases cp <;> cases me <;> cases mm <;>
    simp [show_vm_info_lines, eq_comm]

/-- Witness for C7: with `status` and `maxmem` absent, the name and CPU
lines are still reported and the memory line is omitted. -/
theorem show_vm_info_lines_spec_witness :
    InfoLine.name "web" ∈
      show_vm_info_lines (VmCurrentStatus.mk (some "web") none (some 2) (some 1048576) none) ∧
    (∀ a b q, InfoLine.memory a b q ∉
      show_vm_info_lines (VmCurrentStatus.mk (some "web") none (some 2) (some 1048576) none)) := by
  constructor
  · exact (show_vm_info_lines_spec
      (VmCurrentStatus.mk (some "web") none (some 2) (some 1048576) none)
      "web" "x" 0 0 0).1.mpr rfl
  · exact (show_vm_info_lines_spec
      (VmCurrentStatus.mk (some "web") none (some 2) (some 1048576) none)
      "web" "x" 0 0 0).2.2.2.2 rfl

/-! ## VM listing (`SnapshotManager::list_vms` in `src/snapshot.rs`) -/

structure VmResource where
  node : String
  vmid : Nat
  name : Option String
  status : String
deriving DecidableEq

def list_vms_filtered (resources : List VmResource) (node_filter : Option String) :
    List VmResource :=
  match node_filter with
  | some node => resources.filter (fun r => r.node == node)
  | none => resources

inductive VmsOutput where
  | noVmsFound : VmsOutput
  | table : List VmResource → VmsOutput
deriving DecidableEq

/-- `list_vms`: filter, then report `No VMs found` (still `Ok`) on an empty
result, otherwise render the table. -/
def list_vms (resources : List VmResource) (node_filter : Option String) :
    Except String VmsOutput :=
  if (list_vms_filtered resources node_filter).isEmpty then
    Except.ok VmsOutput.noVmsFound
  else Except.ok (VmsOutput.table (list_vms_filtered resources node_filter))

/-- C8: the node filter keeps exactly the resources whose node equals the
filter string, and an empty filtered result reports "no VMs found" as a
success; `list_vms` never returns an error for any inventory. -/
theorem list_vms_spec (resources : List VmResource) (node_filter : Option String)
    (node : String) (r : VmResource) :
    (r ∈ list_vms_filtered resources (some node) ↔ r ∈ resources ∧ r.node = node) ∧
    (list_vms_filtered resources node_filter = [] →
      list_vms resources node_filter = Except.ok VmsOutput.noVmsFound) ∧
    (∃ out, list_vms resources node_filter = Except.ok out) := by
  refine ⟨?_, ?_, ?_⟩
  · simp [list_vms_filtered, List.mem_filter, beq_iff_eq]
  · intro h
    simp [list_vms, h]
  · unfold list_vms
    split
    · exact ⟨_, rfl⟩
    · exact ⟨_, rfl⟩

/-- Witness for C8: filtering to node "pve3" over an inventory with no such
node yields the "no VMs found" success. -/
theorem list_vms_spec_witness :
    list_vms [VmResource.mk "pve1" 100 (some "web") "running"] (some "pve3") =
      Except.ok VmsOutput.noVmsFound :=
  (list_vms_spec [VmResource.mk "pve1" 100 (some "web") "running"] (some "pve3")
    "pve3" (VmResource.mk "pve1" 100 (some "web") "running")).2.1 (by decide)

/-! ## Node listing (`ClusterManager::list_nodes` in `src/cluster.rs`)

The two endpoint responses are explicit inputs; the `/cluster/status`
fallback response is only consulted when the `/nodes` call failed. -/

structure NodeEntry where
  node : String
  status : String
deriving DecidableEq

structure NodeInfo where
  node : Option String
  name : Option String
  node_type : String
  status : Option String
deriving DecidableEq

def render_node_line (nm st : String) : String :=
  "- " ++ nm ++ " (" ++ st ++ ")"

/-- `item.node.as_ref().or(item.name.as_ref())`. -/
def resolve_node_name (item : NodeInfo) : Option String :=
  match item.node with
  | some n => some n
  | none => item.name

/-- The lines printed by the `/cluster/status` fallback branch. -/
def fallback_node_lines (items : List NodeInfo) : List String :=
  (items.filter (fun n => n.node_type == "node")).filterMap
    (fun item => (resolve_node_name item).map
      (fun nm => render_node_line nm (item.status.getD "unknown")))

def list_nodes (nodesResult : Except String (List NodeEntry))
    (statusResult : Except String (List NodeInfo)) : Except String (List String) :=
  match nodesResult with
  | Except.ok nodes =>
    Except.ok (nodes.map (fun n => render_node_line n.node n.status))
  | Except.error _ =>
    match statusResult with
    | Except.ok items => Except.ok (fallback_node_lines items)
    | Except.error e => Except.error e

/-- C9: when the `/nodes` call succeeds the fallback response is never
consulted; when it fails, the output is built from the `/cluster/status`
entries of type "node", each displayed under its `node` field or, when that
is absent, its `name` field. -/
theorem list_nodes_spec (ns : List NodeEntry) (s1 s2 : Except String (List NodeInfo))
    (e : String) (items : List NodeInfo) (line : String) :
    (list_nodes (Except.ok ns) s1 = list_nodes (Except.ok ns) s2) ∧
    (list_nodes (Except.error e) (Except.ok items) =
      Except.ok (fallback_node_lines items)) ∧
    (line ∈ fallback_node_lines items ↔
      ∃ item ∈ items, item.node_type = "node" ∧
        ∃ nm, resolve_node_name item = some nm ∧
          line = render_node_line nm (item.status.getD "unknown")) ∧
    (∀ item : NodeInfo, ∀ n, item.node = some n → resolve_node_name item = some n) ∧
    (∀ item : NodeInfo, item.node = none → resolve_node_name item = item.name) := by
  refine ⟨rfl, rfl, ?_, ?_, ?_⟩
  · simp only [fallback_node_lines, List.mem_filterMap, List.mem_filter,
      beq_iff_eq, Option.map_eq_some']
    constructor
    · rintro ⟨item, ⟨hit, htype⟩, nm, hres, hline⟩
      exact ⟨item, hit, htype, nm, hres, hline.symm⟩
    · rintro ⟨item, hit, htype, nm, hres, hline⟩
      exact ⟨item, ⟨hit, htype⟩, nm, hres, hline.symm⟩
  · intro item n h
    simp [resolve_node_name, h]
  · intro item h
    simp [resolve_node_name, h]

/-- Witness for C9: the fallback renders type-"node" entries, resolving the
display name from `node` or else `name`. -/
theorem list_nodes_spec_witness :
    list_nodes (Except.error "connection refused")
      (Except.ok [NodeInfo.mk (some "pve1") none "node" (some "online"),
        NodeInfo.mk none (some "pve2") "node" none]) =
      Except.ok (fallback_node_lines
        [NodeInfo.mk (some "pve1") none "node" (some "online"),
          NodeInfo.mk none (some "pve2") "node" none]) ∧
    resolve_node_name (NodeInfo.mk (some "pve1") none "node" (some "online")) =
      some "pve1" ∧
    resolve_node_name (NodeInfo.mk none (some "pve2") "node" none) = some "pve2" :=
  ⟨(list_nodes_spec [] (Except.ok []) (Except.ok []) "connection refused"
      [NodeInfo.mk (some "pve1") none "node" (some "online"),
        NodeInfo.mk none (some "pve2") "node" none] "x").2.1,
   (list_nodes_spec [] (Except.ok []) (Except.ok []) "connection refused" [] "x").2.2.2.1
      (NodeInfo.mk (some "pve1") none "node" (some "online")) "pve1" rfl,
   (list_nodes_spec [] (Except.ok []) (Except.ok []) "connection refused" [] "x").2.2.2.2
      (NodeInfo.mk none (some "pve2") "node" none) rfl⟩

end PveTool
